import Mathlib

/-!
Verification development for the webgl-shader demo gallery.

The repository's operational code is shallowly embedded below:

* `CanvasManager` (src/src/utils/canvas-manager.js, class CanvasManager) as a
  state machine over an abstract DOM container;
* `ScriptContextManager.loadScript` (same file, first ScriptContextManager
  version, the glob-preloading one) as a function over an environment that
  supplies the canvas-manager methods and the preloaded demo modules;
* the basic `useWebGL` hook (src/src/hooks/useWebGL.js): `initWebGLProgram`,
  the initialization effect and the render-loop body, as functions producing
  traces of WebGL/console calls;
* the enhanced `useWebGL` hook (the unnamed enhanced-hook source file):
  `setUniform`, `configureWebGLState` and the rendered-frame body.

Browser objects are abstracted: canvases, contexts and script instances are
`Nat` identifiers; nullable JavaScript values are `Option`; WebGL calls are
constructors of the `GLev` trace event type.  Environment records hold the
results of browser calls (context creation, attribute/uniform lookup, shader
compilation and link status) so every repository-side decision is embedded
faithfully.  `gl.createBuffer`, module import of a preloaded glob entry and
the demo-module entry-point calls are modelled as total: their failures are
runtime conditions (context loss, network), not program logic.
-/

/-- JavaScript `a || d` on an optional number: `null`/`undefined` and `0` are
falsy, so they yield the default. -/
def jsOrNat (v : Option Nat) (d : Nat) : Nat :=
  match v with
  | none => d
  | some n => if n = 0 then d else n

/-- JavaScript `a || d` on an optional string: `null`/`undefined` and the
empty string are falsy. -/
def jsOrStr (v : Option String) (d : String) : String :=
  match v with
  | none => d
  | some s => if s = "" then d else s

/-- JavaScript truthiness of an optional number (`if (x)`). -/
def jsTruthyNat (v : Option Nat) : Bool :=
  match v with
  | none => false
  | some n => n != 0

/-- JavaScript truthiness of an optional boolean (`if (x)`). -/
def jsTruthyBool (v : Option Bool) : Bool :=
  match v with
  | none => false
  | some b => b

/-! ## CanvasManager (src/src/utils/canvas-manager.js lines 1-62)

The container is the list of ids of the manager-created canvases currently
appended to it; a canvas's `parentNode` is the container exactly when its id
is in that list (the manager is the only code touching the container in a
run of manager operations, which is the scope of the claims). `getContext`
may return `null`, so it is an environment function. -/

/-- Environment for `CanvasManager`: the result of `canvas.getContext` for a
given canvas id and context-type string. -/
structure CMEnv where
  getContext : Nat → String → Option Nat

/-- The fields of a `CanvasManager` instance plus the container's children
and a fresh-id counter for `document.createElement('canvas')`. -/
structure CMState where
  children : List Nat
  currentCanvas : Option Nat
  currentContext : Option Nat
  currentType : Option String
  nextId : Nat
deriving DecidableEq, Repr

/-- `new CanvasManager(container)` with an empty container. -/
def CMState.init : CMState :=
  { children := [], currentCanvas := none, currentContext := none,
    currentType := none, nextId := 0 }

/-- `destroyCurrentCanvas()`: when a current canvas exists and has a parent
node, remove it from the parent and null out `currentCanvas` and
`currentContext`; otherwise do nothing. `currentType` is never reset. -/
def destroyCurrentCanvas (st : CMState) : CMState :=
  match st.currentCanvas with
  | some c =>
      if c ∈ st.children then
        { st with children := st.children.erase c,
                  currentCanvas := none, currentContext := none }
      else st
  | none => st

/-- `create2DCanvas(width = 828, height = 512)`: destroy the current canvas,
create and append a new one, record it with its 2d context and type. The
JavaScript default parameters fire on `undefined`, hence `Option.getD`. -/
def create2DCanvas (env : CMEnv) (st : CMState) (width height : Option Nat) :
    CMState × Option Nat :=
  let st1 := destroyCurrentCanvas st
  let id := st1.nextId
  let _w := width.getD 828
  let _h := height.getD 512
  let ctx := env.getContext id ("2d")
  ({ st1 with children := st1.children ++ [id],
              currentCanvas := some id,
              currentContext := ctx,
              currentType := some ("2d"),
              nextId := id + 1 }, ctx)

/-- `createWebGLCanvas(width = 828, height = 512)`: same as
`create2DCanvas` but requesting a `webgl` context. -/
def createWebGLCanvas (env : CMEnv) (st : CMState) (width height : Option Nat) :
    CMState × Option Nat :=
  let st1 := destroyCurrentCanvas st
  let id := st1.nextId
  let _w := width.getD 828
  let _h := height.getD 512
  let ctx := env.getContext id ("webgl")
  ({ st1 with children := st1.children ++ [id],
              currentCanvas := some id,
              currentContext := ctx,
              currentType := some ("webgl"),
              nextId := id + 1 }, ctx)

/-- `getCurrentCanvas()`. -/
def getCurrentCanvas (st : CMState) : Option Nat := st.currentCanvas

/-- `getCurrentContext()`. -/
def getCurrentContext (st : CMState) : Option Nat := st.currentContext

/-- `getCurrentType()`. -/
def getCurrentType (st : CMState) : Option String := st.currentType

/-- One public mutating operation of `CanvasManager`. -/
inductive CMOp where
  | create2D (width height : Option Nat)
  | createWebGL (width height : Option Nat)
  | destroy
deriving DecidableEq, Repr

/-- Run one operation. -/
def CMStep (env : CMEnv) (st : CMState) : CMOp → CMState
  | CMOp.create2D w h => (create2DCanvas env st w h).1
  | CMOp.createWebGL w h => (createWebGLCanvas env st w h).1
  | CMOp.destroy => destroyCurrentCanvas st

/-- Run a sequence of operations from a state. -/
def CMRun (env : CMEnv) (st : CMState) : List CMOp → CMState
  | [] => st
  | op :: ops => CMRun env (CMStep env st op) ops

/-- The canvas-manager invariant: the container is empty with no current
canvas, or holds exactly the current canvas. -/
def CMInv (st : CMState) : Prop :=
  (st.children = [] ∧ st.currentCanvas = none) ∨
  (∃ c, st.children = [c] ∧ st.currentCanvas = some c)

/-! ## ScriptContextManager.loadScript
(src/src/utils/canvas-manager.js, first ScriptContextManager version,
lines 119-212 of the combined file)

`this.canvasManager?.switchTo2D` / `switchToWebGL` / `getCurrentCanvas`,
the glob-preloaded module table and the demo modules' entry points are the
environment; the `scriptInstances` map is the state, modelled as an
association list where `Map.set` replaces in place or appends. -/

/-- Options object accepted by `loadScript`. -/
structure LoadOptions where
  canvasType : Option String
  needCanvas : Option Bool
  width : Option Nat
  height : Option Nat
deriving DecidableEq, Repr

/-- A preloaded demo module: whether `module.default` / `module.init` are
functions, and what each returns when called (`none` models a falsy
result). The calls are modelled as total. -/
structure DemoModule where
  hasDefault : Bool
  runDefault : Option Nat → LoadOptions → Option Nat
  hasInit : Bool
  runInit : Option Nat → LoadOptions → Option Nat

/-- Environment of `loadScript`: the optional-chained canvas-manager calls
and the `availableScripts` table keyed by `'../demos/' + name`. `loadTime`
stands for `new Date().toISOString()`. -/
structure LoadEnv where
  switchTo2D : Option Nat → Option Nat → Option Nat
  switchToWebGL : Option Nat → Option Nat → Option Nat
  getCurrentCanvas : Option Nat
  availableScripts : List (String × DemoModule)
  loadTime : String

/-- A value of the `scriptInstances` map. Lean reserves `instance`, so the
`instance` field is named `inst`. -/
structure ScriptRecord where
  inst : Nat
  canvas : Option Nat
  context : Nat
  canvasType : String
  loadTime : String
  options : LoadOptions

/-- The `scriptInstances` registry. -/
abbrev ScriptMap := List (String × ScriptRecord)

/-- `Map.set`: replace the value at an existing key, else append. -/
def mapSet (st : ScriptMap) (k : String) (v : ScriptRecord) : ScriptMap :=
  match st with
  | [] => [(k, v)]
  | (k0, v0) :: rest =>
      if k0 = k then (k0, v) :: rest else (k0, v0) :: mapSet rest k v

/-- `Map.get` on the registry. -/
def mapGet (st : ScriptMap) (k : String) : Option ScriptRecord :=
  match st with
  | [] => none
  | (k0, v0) :: rest => if k0 = k then some v0 else mapGet rest k

/-- Console output of `loadScript`. -/
inductive LogEvent where
  | log (msg : String)
  | error (msg : String)
  | warn (msg : String)
deriving DecidableEq, Repr

/-- Leading-slash stripping of the `while (normalizedPath.startsWith('/'))`
loop. -/
def stripSlashes : List Char → List Char
  | [] => []
  | c :: cs => if c = '/' then stripSlashes cs else c :: cs

/-- JavaScript `String.prototype.endsWith`, written structurally on the
character list (the host `String.endsWith` is equivalent but not
kernel-reducible). -/
def strEndsWith (s suffix : String) : Bool :=
  let l := s.toList
  let p := suffix.toList
  if p.length ≤ l.length then (l.drop (l.length - p.length)) == p else false

/-- The path normalization inside `loadScript`: strip every leading `'/'`,
then append `'.js'` unless the path already ends in it. -/
def normalizePath (p : String) : String :=
  let s := String.mk (stripSlashes p.toList)
  if strEndsWith s (".js") then s else s ++ ".js"

/-- `options.canvasType || '2d'`. -/
def requiredCanvasType (opts : LoadOptions) : String :=
  jsOrStr opts.canvasType ("2d")

/-- The context obtained by the canvas-type dispatch of `loadScript`:
`switchTo2D` for `'2d'`, `switchToWebGL` for `'webgl'`, otherwise the
`context` variable keeps its initial `null`. -/
def contextFor (env : LoadEnv) (opts : LoadOptions) : Option Nat :=
  let required := requiredCanvasType opts
  if required = "2d" then env.switchTo2D opts.width opts.height
  else if required = "webgl" then env.switchToWebGL opts.width opts.height
  else none

/-- The preloaded module looked up at `'../demos/' + normalize(p)`. -/
def moduleFor (env : LoadEnv) (p : String) : Option DemoModule :=
  env.availableScripts.lookup ("../demos/" ++ normalizePath p)

/-- The `instance` computed from a loaded module: call `module.default`
with the canvas (when `needCanvas`) or the context, else `module.init`
with the current canvas, else stay `null`. -/
def instanceFor (env : LoadEnv) (opts : LoadOptions) (m : DemoModule)
    (ctx : Nat) : Option Nat :=
  let needCanvas := opts.needCanvas.getD false
  if m.hasDefault then
    m.runDefault (if needCanvas then env.getCurrentCanvas else some ctx) opts
  else if m.hasInit then
    m.runInit env.getCurrentCanvas opts
  else none

/-- `loadScript(scriptPath, options)`: returns the settled promise, the new
registry and the console trace. Every throw is re-thrown by the outer
`catch` after `console.error('Error loading script module:', ...)`. -/
def loadScript (env : LoadEnv) (st : ScriptMap) (p : String)
    (opts : LoadOptions) : Except String Nat × ScriptMap × List LogEvent :=
  let required := requiredCanvasType opts
  let canvas := env.getCurrentCanvas
  let head := LogEvent.log ("Loading script module: " ++ p)
  match contextFor env opts with
  | none =>
      (Except.error ("Failed to create canvas context of type: " ++ required),
       st, [head, LogEvent.error ("Error loading script module:")])
  | some ctx =>
      let normalized := normalizePath p
      let modulePath := "../demos/" ++ normalized
      match moduleFor env p with
      | none =>
          (Except.error ("Script " ++ normalized ++ " not found."), st,
           [head,
            LogEvent.error ("Script not found in preloaded modules."),
            LogEvent.error ("Failed to import module: " ++ normalized),
            LogEvent.error ("Error loading script module:")])
      | some m =>
          let t0 := [head, LogEvent.log ("Loading from preloaded scripts: " ++ modulePath)]
          match instanceFor env opts m ctx with
          | some i =>
              (Except.ok i,
               mapSet st p
                 { inst := i, canvas := canvas, context := ctx,
                   canvasType := required, loadTime := env.loadTime,
                   options := opts },
               t0 ++ [LogEvent.log ("Script module loaded successfully: " ++ normalized)])
          | none =>
              (Except.error ("No valid export found in the script module: " ++ normalized),
               st, t0 ++ [LogEvent.error ("Error loading script module:")])

/-- `getScriptInstance(scriptPath)`. -/
def getScriptInstance (st : ScriptMap) (p : String) : Option Nat :=
  match mapGet st p with
  | some r => some r.inst
  | none => none

/-! ## WebGL constants used by the hooks. -/

def GL.SRC_ALPHA : Nat := 770
def GL.ONE_MINUS_SRC_ALPHA : Nat := 771
def GL.BLEND : Nat := 3042
def GL.DEPTH_TEST : Nat := 2929
def GL.UNSIGNED_SHORT : Nat := 5123
def GL.UNSIGNED_INT : Nat := 5125
def GL.COLOR_BUFFER_BIT : Nat := 16384
def GL.DEPTH_BUFFER_BIT : Nat := 256

/-- Which shader a call concerns. -/
inductive ShaderKind where
  | vertex
  | fragment
deriving DecidableEq, Repr

/-- Buffer binding targets. -/
inductive BufTarget where
  | array
  | element
deriving DecidableEq, Repr

/-- One observable call of the hooks: a WebGL API call, a console message,
the user `onRender` callback, or `requestAnimationFrame`. -/
inductive GLev where
  | createShader (k : ShaderKind)
  | shaderSource (k : ShaderKind)
  | compileShader (k : ShaderKind)
  | deleteShader (k : ShaderKind)
  | createProgram
  | attachShader (k : ShaderKind)
  | linkProgram
  | deleteProgram
  | createBuffer (t : BufTarget)
  | bindBuffer (t : BufTarget)
  | bufferData (t : BufTarget)
  | disableVertexAttribArray (i : Nat)
  | vertexAttribPointer (loc : Int) (size ty : Nat) (norm : Bool) (stride off : Nat)
  | enableVertexAttribArray (loc : Int)
  | viewport
  | clearColor
  | clear (mask : Nat)
  | useProgram
  | uniformCall (fn : String) (loc : Nat) (transpose : Option Bool) (value : Nat)
  | onRender
  | drawArrays (mode first count : Nat)
  | drawElements (mode count ty byteOff : Nat)
  | requestAnimationFrame
  | enableCap (cap : Nat)
  | disableCap (cap : Nat)
  | blendFunc (src dst : Nat)
  | blendEquationCall (e : Nat)
  | depthFuncCall (f : Nat)
  | depthMaskCall (b : Bool)
  | consoleError (msg : String)
  | consoleWarn (msg : String)
deriving DecidableEq, Repr

/-- Program-setup calls: everything `initWebGLProgram` does to shaders and
the program. -/
def GLev.isProgramSetup : GLev → Bool
  | GLev.createShader _ => true
  | GLev.shaderSource _ => true
  | GLev.compileShader _ => true
  | GLev.deleteShader _ => true
  | GLev.createProgram => true
  | GLev.attachShader _ => true
  | GLev.linkProgram => true
  | GLev.deleteProgram => true
  | _ => false

/-- Vertex-buffer and attribute-configuration calls. -/
def GLev.isBufferSetup : GLev → Bool
  | GLev.createBuffer _ => true
  | GLev.bindBuffer _ => true
  | GLev.bufferData _ => true
  | GLev.disableVertexAttribArray _ => true
  | GLev.vertexAttribPointer _ _ _ _ _ _ => true
  | GLev.enableVertexAttribArray _ => true
  | _ => false

/-- Uniform-updating work of a frame: a `gl.uniform*` call or the user
`onRender` callback. -/
def GLev.isUniformUpdate : GLev → Bool
  | GLev.uniformCall _ _ _ _ => true
  | GLev.onRender => true
  | _ => false

/-- A `gl.drawArrays` call. -/
def GLev.isDrawArrays : GLev → Bool
  | GLev.drawArrays _ _ _ => true
  | _ => false

/-- A `gl.drawElements` call. -/
def GLev.isDrawElements : GLev → Bool
  | GLev.drawElements _ _ _ _ => true
  | _ => false

/-- Any draw call. -/
def GLev.isDraw (e : GLev) : Bool := e.isDrawArrays || e.isDrawElements

/-- A `requestAnimationFrame` call. -/
def GLev.isRAF : GLev → Bool
  | GLev.requestAnimationFrame => true
  | _ => false

/-- Any `gl.uniform*` call (without `onRender`). -/
def GLev.isUniformCall : GLev → Bool
  | GLev.uniformCall _ _ _ _ => true
  | _ => false

/-! ## initWebGLProgram (src/src/hooks/useWebGL.js lines 52-85) -/

/-- Environment of `initWebGLProgram`: whether `gl.createShader` returns a
shader, the `COMPILE_STATUS` / `LINK_STATUS` parameters, the info logs and
whether `gl.createProgram` returns a program. -/
structure ShaderEnv where
  createShaderOk : ShaderKind → Bool
  compileOk : ShaderKind → Bool
  shaderLog : ShaderKind → String
  createProgramOk : Bool
  linkOk : Bool
  programLog : String

/-- The inner `createShader` closure: create, source, compile; on a false
`COMPILE_STATUS` log the shader info log, delete the shader and return
null. -/
def createShaderTrace (env : ShaderEnv) (k : ShaderKind) :
    Option ShaderKind × List GLev :=
  if env.createShaderOk k then
    if env.compileOk k then
      (some k, [GLev.createShader k, GLev.shaderSource k, GLev.compileShader k])
    else
      (none, [GLev.createShader k, GLev.shaderSource k, GLev.compileShader k,
              GLev.consoleError ("Shader compilation error: " ++ env.shaderLog k),
              GLev.deleteShader k])
  else (none, [GLev.createShader k])

/-- `initWebGLProgram`: build both shaders, then create, attach and link
the program; on a false `LINK_STATUS` log the program info log, delete the
program and return null; on success delete the (attached) shaders and
return the program. -/
def initWebGLProgram (env : ShaderEnv) : Option Unit × List GLev :=
  let vs := createShaderTrace env ShaderKind.vertex
  let fs := createShaderTrace env ShaderKind.fragment
  let t0 := vs.2 ++ fs.2
  match vs.1, fs.1 with
  | some _, some _ =>
      if env.createProgramOk then
        let t1 := t0 ++ [GLev.createProgram, GLev.attachShader ShaderKind.vertex,
                         GLev.attachShader ShaderKind.fragment, GLev.linkProgram]
        if env.linkOk then
          (some (), t1 ++ [GLev.deleteShader ShaderKind.vertex,
                           GLev.deleteShader ShaderKind.fragment])
        else
          (none, t1 ++ [GLev.consoleError ("Program linking error: " ++ env.programLog),
                        GLev.deleteProgram])
      else (none, t0 ++ [GLev.createProgram])
  | _, _ => (none, t0)

/-! ## The vertex-attribute setup loop
(src/src/hooks/useWebGL.js lines 120-142; the enhanced hook repeats the
same loop verbatim, so both are embedded by `attribLoop`). -/

/-- One entry of `vertexLayout.attributes`. -/
structure Attr where
  name : String
  size : Nat
  ty : Nat
  normalized : Option Bool
deriving DecidableEq, Repr

/-- `vertexLayout`. -/
structure VertexLayout where
  attributes : List Attr
  stride : Nat
deriving DecidableEq, Repr

/-- The `forEach` over the attributes: look the name up with
`getAttribLocation` (negative means not found); when not found warn and
continue without touching the running byte offset; otherwise bind the
attribute at the current offset and advance it by `size * FSIZE`. -/
def attribLoop (getLoc : String → Int) (F stride : Nat) :
    List Attr → Nat → List GLev
  | [], _ => []
  | a :: rest, off =>
      let loc := getLoc a.name
      if loc < 0 then
        GLev.consoleWarn ("Attribute not found in shader: " ++ a.name) ::
          attribLoop getLoc F stride rest off
      else
        GLev.vertexAttribPointer loc a.size a.ty (a.normalized.getD false) stride off ::
          GLev.enableVertexAttribArray loc ::
          attribLoop getLoc F stride rest (off + a.size * F)

/-! ## The basic useWebGL hook (src/src/hooks/useWebGL.js lines 92-191) -/

/-- Environment of the basic hook's initialization effect. -/
structure BasicEnv where
  canvasPresent : Bool
  glOk : Bool
  shader : ShaderEnv
  getAttribLocation : String → Int

/-- The options of the basic hook that the initialization effect reads.
`vertices` is a `Float32Array`, kept abstract except for
`BYTES_PER_ELEMENT`. -/
structure BasicOptions where
  vertexLayout : VertexLayout
  bytesPerElement : Nat

/-- `drawConfig` of the basic hook. -/
structure DrawConfigB where
  mode : Nat
  count : Nat
  offset : Option Nat
deriving DecidableEq, Repr

/-- The initialization effect: get the context, build the program (stop
when it is null), then create, bind and fill the vertex buffer and run the
attribute loop. -/
def basicInitTrace (env : BasicEnv) (opts : BasicOptions) : List GLev :=
  if !env.canvasPresent then []
  else if !env.glOk then [GLev.consoleError ("WebGL not supported!")]
  else
    let p := initWebGLProgram env.shader
    match p.1 with
    | none => p.2
    | some _ =>
        p.2 ++ [GLev.createBuffer BufTarget.array, GLev.bindBuffer BufTarget.array,
                GLev.bufferData BufTarget.array] ++
          attribLoop env.getAttribLocation opts.bytesPerElement
            opts.vertexLayout.stride opts.vertexLayout.attributes 0

/-- One pass of the basic hook's `render` callback: resize bookkeeping and
viewport, clear, use the program, run `onRender` when configured, issue the
single `drawArrays`, then schedule the next frame. -/
def basicFrameTrace (hasOnRender : Bool) (dc : DrawConfigB) : List GLev :=
  ([GLev.viewport, GLev.clearColor, GLev.clear GL.COLOR_BUFFER_BIT, GLev.useProgram] ++
    (if hasOnRender then [GLev.onRender] else [])) ++
    [GLev.drawArrays dc.mode (jsOrNat dc.offset 0) dc.count,
     GLev.requestAnimationFrame]

/-! ## The enhanced useWebGL hook (the unnamed enhanced-hook source file):
setUniform, configureWebGLState and the rendered-frame body. -/

/-- A `WebGLUniform`: the `type` tag and the `value` (an opaque JavaScript
value, passed through verbatim, modelled as a `Nat` identifier). -/
structure Uniform where
  ty : String
  value : Nat
deriving DecidableEq, Repr

/-- `setUniform(gl, program, name, uniform)` as a trace: warn and stop when
`getUniformLocation` is null; otherwise dispatch on the type tag; an
unknown tag only warns. Matrix variants pass `transpose = false`. -/
def setUniform (getLoc : String → Option Nat) (name : String) (u : Uniform) :
    List GLev :=
  match getLoc name with
  | none => [GLev.consoleWarn ("Uniform not found in shader: " ++ name)]
  | some loc =>
      if u.ty = "1f" then [GLev.uniformCall ("uniform1f") loc none u.value]
      else if u.ty = "2f" then [GLev.uniformCall ("uniform2fv") loc none u.value]
      else if u.ty = "3f" then [GLev.uniformCall ("uniform3fv") loc none u.value]
      else if u.ty = "4f" then [GLev.uniformCall ("uniform4fv") loc none u.value]
      else if u.ty = "1i" then [GLev.uniformCall ("uniform1i") loc none u.value]
      else if u.ty = "2i" then [GLev.uniformCall ("uniform2iv") loc none u.value]
      else if u.ty = "3i" then [GLev.uniformCall ("uniform3iv") loc none u.value]
      else if u.ty = "4i" then [GLev.uniformCall ("uniform4iv") loc none u.value]
      else if u.ty = "Matrix2fv" then
        [GLev.uniformCall ("uniformMatrix2fv") loc (some false) u.value]
      else if u.ty = "Matrix3fv" then
        [GLev.uniformCall ("uniformMatrix3fv") loc (some false) u.value]
      else if u.ty = "Matrix4fv" then
        [GLev.uniformCall ("uniformMatrix4fv") loc (some false) u.value]
      else [GLev.consoleWarn ("Unknown uniform type: " ++ u.ty)]

/-- `WebGLBlendConfig`. -/
structure BlendConfig where
  enabled : Bool
  srcFactor : Option Nat
  dstFactor : Option Nat
  equation : Option Nat
deriving DecidableEq, Repr

/-- `WebGLDepthConfig`. -/
structure DepthConfig where
  enabled : Bool
  func : Option Nat
  mask : Option Bool
deriving DecidableEq, Repr

/-- The blend and depth portion of WebGL context state touched by
`configureWebGLState`. -/
structure GLState where
  blendOn : Bool
  blendSrc : Nat
  blendDst : Nat
  blendEq : Nat
  depthOn : Bool
  depthFn : Nat
  depthWrite : Bool
deriving DecidableEq, Repr

/-- The `if (options.blending)` block of `configureWebGLState`: when
present and enabled, enable `BLEND` and call `blendFunc` with
`||`-defaulted factors, then `blendEquation` only on a truthy equation;
when present and disabled, disable `BLEND`; when absent, do nothing. -/
def configureBlend (st : GLState) (blending : Option BlendConfig) :
    GLState × List GLev :=
  match blending with
  | none => (st, [])
  | some cfg =>
      if cfg.enabled then
        let src := jsOrNat cfg.srcFactor GL.SRC_ALPHA
        let dst := jsOrNat cfg.dstFactor GL.ONE_MINUS_SRC_ALPHA
        let base := ({ st with blendOn := true, blendSrc := src, blendDst := dst },
                     [GLev.enableCap GL.BLEND, GLev.blendFunc src dst])
        if jsTruthyNat cfg.equation then
          ({ base.1 with blendEq := cfg.equation.getD 0 },
           base.2 ++ [GLev.blendEquationCall (cfg.equation.getD 0)])
        else base
      else ({ st with blendOn := false }, [GLev.disableCap GL.BLEND])

/-- The `if (options.depth)` block of `configureWebGLState`: enable
`DEPTH_TEST` with `depthFunc` on a truthy `func` and `depthMask !== false`;
or disable; or do nothing when absent. -/
def configureDepth (st : GLState) (depth : Option DepthConfig) :
    GLState × List GLev :=
  match depth with
  | none => (st, [])
  | some cfg =>
      if cfg.enabled then
        let w := cfg.mask != some false
        let s2 := { st with depthOn := true, depthWrite := w }
        if jsTruthyNat cfg.func then
          ({ s2 with depthFn := cfg.func.getD 0 },
           [GLev.enableCap GL.DEPTH_TEST, GLev.depthFuncCall (cfg.func.getD 0),
            GLev.depthMaskCall w])
        else (s2, [GLev.enableCap GL.DEPTH_TEST, GLev.depthMaskCall w])
      else ({ st with depthOn := false }, [GLev.disableCap GL.DEPTH_TEST])

/-- `configureWebGLState(gl, options)`: the blending block followed by the
depth block. Returns the new state and the calls made. -/
def configureWebGLState (st : GLState) (blending : Option BlendConfig)
    (depth : Option DepthConfig) : GLState × List GLev :=
  let s1 := configureBlend st blending
  let s2 := configureDepth s1.1 depth
  (s2.1, s1.2 ++ s2.2)

/-- The kind of a provided `indices` array. -/
inductive IndexKind where
  | uint16
  | uint32
deriving DecidableEq, Repr

/-- `drawConfig` of the enhanced hook. -/
structure DrawConfigE where
  mode : Nat
  count : Nat
  offset : Option Nat
  useElements : Option Bool
deriving DecidableEq, Repr

/-- The static options the rendered frame reads: whether `options.indices`
was provided (the initialization effect then created the index buffer) and
of which typed-array kind, and whether the vertex buffer is present. -/
structure EnhStatic where
  indices : Option IndexKind
  vertexBufPresent : Bool
deriving DecidableEq, Repr

/-- The dynamic options the rendered frame reads. -/
structure EnhDyn where
  drawConfig : DrawConfigE
  uniforms : Option (List (String × Uniform))
  blending : Option BlendConfig
  depth : Option DepthConfig
  hasOnRender : Bool
deriving Repr

/-- Per-frame environment of the enhanced hook. `fallbackResize` is the
auto-resize fallback branch (no ResizeObserver and a size mismatch). -/
structure RenderEnv where
  getUniformLocation : String → Option Nat
  fallbackResize : Bool

/-- The `if (dynamicOptions.uniforms)` dispatch over `Object.entries`. -/
def uniformsTrace (getLoc : String → Option Nat) :
    Option (List (String × Uniform)) → List GLev
  | none => []
  | some us => us.flatMap (fun nu => setUniform getLoc nu.1 nu.2)

/-- `dynamicOptions.depth?.enabled`. -/
def depthEnabled (depth : Option DepthConfig) : Bool :=
  match depth with
  | some d => d.enabled
  | none => false

/-- The element-draw condition `drawConfig.useElements &&
buffersRef.current.index`. -/
def useElementsNow (stat : EnhStatic) (dyn : EnhDyn) : Bool :=
  jsTruthyBool dyn.drawConfig.useElements && stat.indices.isSome

/-- The index type chosen by `staticOptions.indices instanceof
Uint32Array`. -/
def chosenIndexType (stat : EnhStatic) : Nat :=
  if stat.indices = some IndexKind.uint32 then GL.UNSIGNED_INT
  else GL.UNSIGNED_SHORT

/-- The draw call the rendered frame issues. -/
def frameDraw (stat : EnhStatic) (dyn : EnhDyn) : GLev :=
  if useElementsNow stat dyn then
    let ity := chosenIndexType stat
    GLev.drawElements dyn.drawConfig.mode dyn.drawConfig.count ity
      (jsOrNat dyn.drawConfig.offset 0 * (if ity = GL.UNSIGNED_INT then 4 else 2))
  else
    GLev.drawArrays dyn.drawConfig.mode (jsOrNat dyn.drawConfig.offset 0)
      dyn.drawConfig.count

/-- The part of the enhanced hook's rendered-frame body that precedes the
draw call: optional fallback resize, state configuration, clear (adding
the depth bit when depth testing is enabled), `useProgram`, buffer binds,
uniform dispatch and `onRender`. -/
def renderFramePre (env : RenderEnv) (stat : EnhStatic) (dyn : EnhDyn)
    (st : GLState) : List GLev :=
  (if env.fallbackResize then [GLev.viewport] else []) ++
    (configureWebGLState st dyn.blending dyn.depth).2 ++
    [GLev.clearColor,
     GLev.clear (GL.COLOR_BUFFER_BIT |||
       (if depthEnabled dyn.depth then GL.DEPTH_BUFFER_BIT else 0)),
     GLev.useProgram] ++
    (if stat.vertexBufPresent then [GLev.bindBuffer BufTarget.array] else []) ++
    (if useElementsNow stat dyn then [GLev.bindBuffer BufTarget.element] else []) ++
    uniformsTrace env.getUniformLocation dyn.uniforms ++
    (if dyn.hasOnRender then [GLev.onRender] else [])

/-- The body of the enhanced hook's `render` callback on a rendered frame
(after the FPS gate): everything before the draw call, then the selected
draw call, then `requestAnimationFrame`. -/
def renderFrame (env : RenderEnv) (stat : EnhStatic) (dyn : EnhDyn)
    (st : GLState) : List GLev :=
  renderFramePre env stat dyn st ++ [frameDraw stat dyn, GLev.requestAnimationFrame]

/-! ## Measurement definitions used by the statements. -/

/-- An error console entry. -/
def LogEvent.isError : LogEvent → Bool
  | LogEvent.error _ => true
  | _ => false

/-- `P`-events strictly precede `Q`-events in a trace. -/
def OrderedBefore (P Q : GLev → Bool) (t : List GLev) : Prop :=
  ∀ i j, (hi : i < t.length) → (hj : j < t.length) →
    P (t.get ⟨i, hi⟩) = true → Q (t.get ⟨j, hj⟩) = true → i < j

/-- The size an attribute contributes to the running byte offset of the
attribute loop: its `size` when its name is found in the program, else 0. -/
def foundSize (getLoc : String → Int) (a : Attr) : Nat :=
  if getLoc a.name < 0 then 0 else a.size

/-- The size an attribute fails to contribute because its name was not
found: its `size` when skipped, else 0. -/
def skippedSize (getLoc : String → Int) (a : Attr) : Nat :=
  if getLoc a.name < 0 then a.size else 0

/-- The byte offset the attribute loop passes for the `k`-th attribute:
`FSIZE` times the sizes of the preceding attributes that were found. -/
def foundOffset (getLoc : String → Int) (F : Nat) (attrs : List Attr)
    (k : Nat) : Nat :=
  ((attrs.take k).map (foundSize getLoc)).sum * F

/-- The byte offset the `k`-th attribute's position in the interleaved
vertex data would give: `FSIZE` times all preceding sizes. -/
def fullOffset (F : Nat) (attrs : List Attr) (k : Nat) : Nat :=
  ((attrs.take k).map Attr.size).sum * F

/-! ## Concrete fixtures used by the witnesses. -/

/-- A demo module whose default export returns instance 42. -/
def demoModule0 : DemoModule :=
  { hasDefault := true, runDefault := fun _ _ => some 42,
    hasInit := false, runInit := fun _ _ => none }

/-- A load environment with one preloaded script and working canvas
switching. -/
def loadEnv0 : LoadEnv :=
  { switchTo2D := fun _ _ => some 7, switchToWebGL := fun _ _ => some 8,
    getCurrentCanvas := some 3,
    availableScripts := [("../demos/basic.js", demoModule0)],
    loadTime := "t0" }

/-- Empty load options. -/
def loadOpts0 : LoadOptions :=
  { canvasType := none, needCanvas := none, width := none, height := none }

/-- A canvas-manager environment whose contexts always succeed. -/
def cmEnv0 : CMEnv := { getContext := fun _ _ => some 1 }

/-- A shader environment where everything succeeds. -/
def shaderEnvOk : ShaderEnv :=
  { createShaderOk := fun _ => true, compileOk := fun _ => true,
    shaderLog := fun _ => "", createProgramOk := true, linkOk := true,
    programLog := "" }

/-- A shader environment whose vertex shader fails to compile. -/
def shaderEnvBadVertex : ShaderEnv :=
  { createShaderOk := fun _ => true,
    compileOk := fun k => match k with | ShaderKind.vertex => false | _ => true,
    shaderLog := fun _ => "bad vertex", createProgramOk := true, linkOk := true,
    programLog := "" }

/-- A shader environment whose program fails to link. -/
def shaderEnvBadLink : ShaderEnv :=
  { createShaderOk := fun _ => true, compileOk := fun _ => true,
    shaderLog := fun _ => "", createProgramOk := true, linkOk := false,
    programLog := "bad link" }

/-- A basic-hook environment with a working context and attribute 0. -/
def basicEnv0 : BasicEnv :=
  { canvasPresent := true, glOk := true, shader := shaderEnvOk,
    getAttribLocation := fun _ => 0 }

/-- A one-attribute layout. -/
def layout0 : VertexLayout :=
  { attributes := [{ name := "a_position", size := 2, ty := 5126, normalized := none }],
    stride := 8 }

/-- Basic options over `layout0`. -/
def bopts0 : BasicOptions := { vertexLayout := layout0, bytesPerElement := 4 }

/-- A basic draw config. -/
def dcB0 : DrawConfigB := { mode := 4, count := 3, offset := none }

/-- An enhanced-hook frame environment. -/
def renv0 : RenderEnv :=
  { getUniformLocation := fun _ => some 0, fallbackResize := false }

/-- Static options with Uint32 indices. -/
def stat0 : EnhStatic := { indices := some IndexKind.uint32, vertexBufPresent := true }

/-- An element-drawing draw config. -/
def dcE0 : DrawConfigE :=
  { mode := 4, count := 6, offset := some 2, useElements := some true }

/-- Dynamic options with one uniform and an `onRender` callback. -/
def dyn0 : EnhDyn :=
  { drawConfig := dcE0,
    uniforms := some [("u_time", { ty := "1f", value := 5 })],
    blending := none, depth := none, hasOnRender := true }

/-- A starting WebGL blend/depth state. -/
def glState0 : GLState :=
  { blendOn := false, blendSrc := 1, blendDst := 0, blendEq := 32774,
    depthOn := false, depthFn := 513, depthWrite := true }

/-- A blend config requesting the factor `gl.ZERO` (the numeric constant
0) explicitly. -/
def blendZeroCfg : BlendConfig :=
  { enabled := true, srcFactor := some 0, dstFactor := none, equation := none }

/-- An attribute lookup where `a_missing` is not found in the program. -/
def getLocW : String → Int :=
  fun s => if s = "a_missing" then -1 else if s = "a_color" then 1 else 0

/-- Three interleaved attributes, the middle one absent from the shader. -/
def attrsW : List Attr :=
  [{ name := "a_position", size := 2, ty := 5126, normalized := none },
   { name := "a_missing", size := 3, ty := 5126, normalized := none },
   { name := "a_color", size := 4, ty := 5126, normalized := none }]

/-! # Theorems -/

/-! ## Generic trace-ordering helpers -/

theorem allP_imp_lt {P : GLev → Bool} (xs ys : List GLev)
    (h : ∀ e ∈ ys, P e = false) (i : Nat) (hi : i < (xs ++ ys).length)
    (hP : P ((xs ++ ys).get ⟨i, hi⟩) = true) : i < xs.length := by
  by_contra hge
  push_neg at hge
  have hlt : i - xs.length < ys.length := by
    have := hi
    simp [List.length_append] at this
    omega
  have heq : (xs ++ ys).get ⟨i, hi⟩ = ys.get ⟨i - xs.length, hlt⟩ := by
    simp [List.get_eq_getElem, List.getElem_append_right hge]
  rw [heq] at hP
  have hmem := List.get_mem ys _ hlt
  have := h _ hmem
  rw [this] at hP
  exact Bool.false_ne_true hP

theorem allQ_imp_ge {Q : GLev → Bool} (xs ys : List GLev)
    (h : ∀ e ∈ xs, Q e = false) (j : Nat) (hj : j < (xs ++ ys).length)
    (hQ : Q ((xs ++ ys).get ⟨j, hj⟩) = true) : xs.length ≤ j := by
  by_contra hlt
  push_neg at hlt
  have heq : (xs ++ ys).get ⟨j, hj⟩ = xs.get ⟨j, hlt⟩ := by
    simp [List.get_eq_getElem, List.getElem_append_left hlt]
  rw [heq] at hQ
  have hmem := List.get_mem xs _ hlt
  have := h _ hmem
  rw [this] at hQ
  exact Bool.false_ne_true hQ

theorem orderedBefore_append {P Q : GLev → Bool} (xs ys : List GLev)
    (hP : ∀ e ∈ ys, P e = false) (hQ : ∀ e ∈ xs, Q e = false) :
    OrderedBefore P Q (xs ++ ys) := by
  intro i j hi hj hPi hQj
  exact Nat.lt_of_lt_of_le (allP_imp_lt xs ys hP i hi hPi)
    (allQ_imp_ge xs ys hQ j hj hQj)

theorem orderedBefore_of_notQ {P Q : GLev → Bool} (t : List GLev)
    (h : ∀ e ∈ t, Q e = false) : OrderedBefore P Q t := by
  intro i j hi hj hPi hQj
  have := h _ (List.get_mem t _ hj)
  rw [this] at hQj
  exact absurd hQj (Bool.false_ne_true)

/-! ## CanvasManager lemmas -/

theorem destroy_resets (st : CMState) (h : CMInv st) :
    (destroyCurrentCanvas st).children = [] ∧
    (destroyCurrentCanvas st).currentCanvas = none := by
  rcases h with ⟨h1, h2⟩ | ⟨c, h1, h2⟩
  · simp [destroyCurrentCanvas, h1, h2]
  · simp [destroyCurrentCanvas, h1, h2]

theorem step_inv (env : CMEnv) (op : CMOp) (st : CMState) (h : CMInv st) :
    CMInv (CMStep env st op) := by
  cases op with
  | create2D w hh =>
      obtain ⟨hc, hcc⟩ := destroy_resets st h
      right
      refine ⟨(destroyCurrentCanvas st).nextId, ?_, ?_⟩
      · simp [CMStep, create2DCanvas, hc]
      · simp [CMStep, create2DCanvas]
  | createWebGL w hh =>
      obtain ⟨hc, hcc⟩ := destroy_resets st h
      right
      refine ⟨(destroyCurrentCanvas st).nextId, ?_, ?_⟩
      · simp [CMStep, createWebGLCanvas, hc]
      · simp [CMStep, createWebGLCanvas]
  | destroy =>
      obtain ⟨hc, hcc⟩ := destroy_resets st h
      left
      exact ⟨hc, hcc⟩

theorem run_inv (env : CMEnv) (ops : List CMOp) :
    ∀ st : CMState, CMInv st → CMInv (CMRun env st ops) := by
  induction ops with
  | nil => intro st h; exact h
  | cons op rest ih =>
      intro st h
      exact ih _ (step_inv env op st h)

/-- C3: starting from a fresh manager, any sequence of CanvasManager
operations leaves at most one manager-created canvas in the container:
each create operation first destroys the attached current canvas, so
switching demo types replaces the canvas instead of accumulating. -/
theorem canvasManager_at_most_one_canvas (env : CMEnv) (ops : List CMOp) :
    (CMRun env CMState.init ops).children.length ≤ 1 ∧
    CMInv (CMRun env CMState.init ops) := by
  have h0 : CMInv CMState.init := Or.inl ⟨rfl, rfl⟩
  have h := run_inv env ops CMState.init h0
  refine ⟨?_, h⟩
  rcases h with ⟨h1, _⟩ | ⟨c, h1, _⟩ <;> simp [h1]

/-- C10: after `destroyCurrentCanvas` removes an attached canvas,
`getCurrentCanvas` and `getCurrentContext` return null but
`getCurrentType` still reports the destroyed canvas's type, because
`destroyCurrentCanvas` never resets `currentType`. -/
theorem destroy_keeps_currentType (st : CMState) (c : Nat)
    (h1 : st.currentCanvas = some c) (h2 : c ∈ st.children) :
    getCurrentCanvas (destroyCurrentCanvas st) = none ∧
    getCurrentContext (destroyCurrentCanvas st) = none ∧
    getCurrentType (destroyCurrentCanvas st) = st.currentType := by
  simp [destroyCurrentCanvas, getCurrentCanvas, getCurrentContext,
    getCurrentType, h1, h2]

theorem destroy_keeps_currentType_witness :
    getCurrentCanvas (destroyCurrentCanvas (create2DCanvas cmEnv0 CMState.init none none).1) = none ∧
    getCurrentContext (destroyCurrentCanvas (create2DCanvas cmEnv0 CMState.init none none).1) = none ∧
    getCurrentType (destroyCurrentCanvas (create2DCanvas cmEnv0 CMState.init none none).1) =
      (create2DCanvas cmEnv0 CMState.init none none).1.currentType :=
  destroy_keeps_currentType (create2DCanvas cmEnv0 CMState.init none none).1 0
    (by decide) (by decide)

/-! ## loadScript lemmas -/

theorem mapGet_mapSet (st : ScriptMap) (k : String) (v : ScriptRecord) :
    mapGet (mapSet st k v) k = some v := by
  induction st with
  | nil => simp [mapSet, mapGet]
  | cons hd rest ih =>
      obtain ⟨k0, v0⟩ := hd
      by_cases hk : k0 = k
      · simp [mapSet, mapGet, hk]
      · simp [mapSet, mapGet, hk, ih]

/-- C1: when `loadScript` obtains a context of the requested type, the
module at `'../demos/' + normalize(p)` is among the preloaded modules and
its default export, called with the canvas when `needCanvas` else the
context, returns a truthy instance, then `loadScript` stores a record for
key `p` (so `getScriptInstance p` returns that instance) and resolves with
the instance. -/
theorem loadScript_success (env : LoadEnv) (st : ScriptMap) (p : String)
    (opts : LoadOptions) (ctx i : Nat) (m : DemoModule)
    (hctx : contextFor env opts = some ctx)
    (hmod : env.availableScripts.lookup ("../demos/" ++ normalizePath p) = some m)
    (hdef : m.hasDefault = true)
    (hrun : m.runDefault
      (if opts.needCanvas.getD false then env.getCurrentCanvas else some ctx)
      opts = some i) :
    (loadScript env st p opts).1 = Except.ok i ∧
    mapGet (loadScript env st p opts).2.1 p =
      some { inst := i, canvas := env.getCurrentCanvas, context := ctx,
             canvasType := requiredCanvasType opts, loadTime := env.loadTime,
             options := opts } ∧
    getScriptInstance (loadScript env st p opts).2.1 p = some i := by
  have hmod' : moduleFor env p = some m := hmod
  have hinst : instanceFor env opts m ctx = some i := by
    simp [instanceFor, hdef, hrun]
  refine ⟨?_, ?_, ?_⟩
  · simp [loadScript, hctx, hmod', hinst]
  · simp [loadScript, hctx, hmod', hinst, mapGet_mapSet]
  · simp [loadScript, getScriptInstance, hctx, hmod', hinst, mapGet_mapSet]

theorem loadScript_success_witness :
    (loadScript loadEnv0 [] ("/basic") loadOpts0).1 = Except.ok 42 ∧
    mapGet (loadScript loadEnv0 [] ("/basic") loadOpts0).2.1 ("/basic") =
      some { inst := 42, canvas := loadEnv0.getCurrentCanvas, context := 7,
             canvasType := requiredCanvasType loadOpts0,
             loadTime := loadEnv0.loadTime, options := loadOpts0 } ∧
    getScriptInstance (loadScript loadEnv0 [] ("/basic") loadOpts0).2.1 ("/basic") =
      some 42 :=
  loadScript_success loadEnv0 [] ("/basic") loadOpts0 7 42 demoModule0
    (by decide) (by simp [loadEnv0, normalizePath, stripSlashes, strEndsWith])
    rfl rfl

/-- C2: `loadScript` rejects exactly when the requested context cannot be
created, or the normalized module path is not a key of the preloaded
scripts, or the loaded module produces no truthy instance; in every such
case an error is logged and the `scriptInstances` registry is returned
unchanged. -/
theorem loadScript_failure_cases (env : LoadEnv) (st : ScriptMap) (p : String)
    (opts : LoadOptions) :
    ((loadScript env st p opts).1.isOk = false ↔
      (contextFor env opts = none ∨ (moduleFor env p).isNone = true ∨
        ∃ ctx m, contextFor env opts = some ctx ∧ moduleFor env p = some m ∧
          instanceFor env opts m ctx = none)) ∧
    ((loadScript env st p opts).1.isOk = false →
      (loadScript env st p opts).2.1 = st ∧
      ((loadScript env st p opts).2.2.any LogEvent.isError) = true) := by
  cases hc : contextFor env opts with
  | none =>
      simp [loadScript, hc, Except.isOk, Except.toBool, LogEvent.isError]
  | some ctx =>
      cases hm : moduleFor env p with
      | none =>
          simp [loadScript, hc, hm, Except.isOk, Except.toBool, LogEvent.isError]
      | some m =>
          cases hi : instanceFor env opts m ctx with
          | none =>
              constructor
              · simp [loadScript, hc, hm, hi, Except.isOk, Except.toBool]
              · simp [loadScript, hc, hm, hi, Except.isOk, Except.toBool,
                  LogEvent.isError]
          | some i =>
              constructor
              · simp [loadScript, hc, hm, hi, Except.isOk, Except.toBool]
              · simp [loadScript, hc, hm, hi, Except.isOk, Except.toBool]

theorem loadScript_failure_cases_witness :
    (loadScript loadEnv0 [] ("/missing") loadOpts0).2.1 = [] ∧
    ((loadScript loadEnv0 [] ("/missing") loadOpts0).2.2.any LogEvent.isError) = true :=
  (loadScript_failure_cases loadEnv0 [] ("/missing") loadOpts0).2
    (by simp [loadScript, contextFor, requiredCanvasType, jsOrStr, loadOpts0,
      moduleFor, loadEnv0, normalizePath, stripSlashes, strEndsWith,
      List.lookup, Except.isOk, Except.toBool])

/-! ## Trace classification lemmas -/

theorem forall_mem_append {P : GLev → Prop} {xs ys : List GLev}
    (hx : ∀ e ∈ xs, P e) (hy : ∀ e ∈ ys, P e) : ∀ e ∈ xs ++ ys, P e := by
  intro e he
  rcases List.mem_append.mp he with h | h
  · exact hx e h
  · exact hy e h

theorem forall_mem_if_singleton {P : GLev → Prop} {c : Prop} [Decidable c]
    {x : GLev} (hx : P x) : ∀ e ∈ (if c then [x] else []), P e := by
  intro e he
  split at he
  · simp at he
    subst he
    exact hx
  · simp at he

theorem createShaderTrace_noBuffer (env : ShaderEnv) (k : ShaderKind) :
    ∀ e ∈ (createShaderTrace env k).2, e.isBufferSetup = false := by
  intro e he
  by_cases h1 : env.createShaderOk k
  · by_cases h2 : env.compileOk k
    · simp [createShaderTrace, h1, h2] at he
      rcases he with rfl | rfl | rfl <;> rfl
    · simp [createShaderTrace, h1, h2] at he
      rcases he with rfl | rfl | rfl | rfl | rfl <;> rfl
  · simp [createShaderTrace, h1] at he
    subst he
    rfl

theorem initWebGLProgram_noBuffer (env : ShaderEnv) :
    ∀ e ∈ (initWebGLProgram env).2, e.isBufferSetup = false := by
  intro e he
  have hv := createShaderTrace_noBuffer env ShaderKind.vertex
  have hf := createShaderTrace_noBuffer env ShaderKind.fragment
  unfold initWebGLProgram at he
  rcases hov : (createShaderTrace env ShaderKind.vertex).1 with _ | v <;>
    rcases hof : (createShaderTrace env ShaderKind.fragment).1 with _ | f <;>
      simp [hov, hof] at he
  · rcases he with h | h
    · exact hv _ h
    · exact hf _ h
  · rcases he with h | h
    · exact hv _ h
    · exact hf _ h
  · rcases he with h | h
    · exact hv _ h
    · exact hf _ h
  · by_cases hp : env.createProgramOk
    · by_cases hl : env.linkOk
      · simp [hp, hl] at he
        rcases he with h | h | rfl | rfl | rfl | rfl | rfl | rfl
        · exact hv _ h
        · exact hf _ h
        all_goals rfl
      · simp [hp, hl] at he
        rcases he with h | h | rfl | rfl | rfl | rfl | rfl | rfl
        · exact hv _ h
        · exact hf _ h
        all_goals rfl
    · simp [hp] at he
      rcases he with h | h | rfl
      · exact hv _ h
      · exact hf _ h
      · rfl

theorem attribLoop_noProgram (getLoc : String → Int) (F stride : Nat)
    (attrs : List Attr) :
    ∀ off, ∀ e ∈ attribLoop getLoc F stride attrs off, e.isProgramSetup = false := by
  induction attrs with
  | nil => intro off e he; simp [attribLoop] at he
  | cons a rest ih =>
      intro off e he
      by_cases hl : getLoc a.name < 0
      · simp [attribLoop, hl] at he
        rcases he with rfl | he
        · rfl
        · exact ih _ _ he
      · simp [attribLoop, hl] at he
        rcases he with rfl | rfl | he
        · rfl
        · rfl
        · exact ih _ _ he

theorem basicInit_order (env : BasicEnv) (opts : BasicOptions) :
    OrderedBefore GLev.isProgramSetup GLev.isBufferSetup (basicInitTrace env opts) := by
  unfold basicInitTrace
  by_cases h1 : env.canvasPresent
  · by_cases h2 : env.glOk
    · rcases hp : (initWebGLProgram env.shader).1 with _ | u
      · simp [h1, h2, hp]
        exact orderedBefore_of_notQ _ (initWebGLProgram_noBuffer env.shader)
      · simp [h1, h2, hp]
        refine orderedBefore_append _ _ ?_ (initWebGLProgram_noBuffer env.shader)
        intro e he
        simp at he
        rcases he with rfl | rfl | rfl | he
        · rfl
        · rfl
        · rfl
        · exact attribLoop_noProgram _ _ _ _ 0 e he
    · simp [h1, h2]
      refine orderedBefore_of_notQ _ ?_
      intro e he
      simp at he
      subst he
      rfl
  · simp [h1]
    exact orderedBefore_of_notQ _ (by intro e he; simp at he)

theorem forall_mem_singleton_prop {P : GLev → Prop} {x : GLev} (hx : P x) :
    ∀ e ∈ [x], P e := by
  intro e he
  simp at he
  subst he
  exact hx

theorem mem_ite_prop (P : GLev → Prop) {c : Prop} [Decidable c]
    {xs ys : List GLev} (hx : ∀ x ∈ xs, P x) (hy : ∀ y ∈ ys, P y) :
    ∀ e ∈ (if c then xs else ys), P e := by
  split
  · exact hx
  · exact hy

theorem setUniform_noLate (g : String → Option Nat) (n : String) (u : Uniform) :
    ∀ e ∈ setUniform g n u, e.isDraw = false ∧ e.isRAF = false := by
  intro e he
  unfold setUniform at he
  rcases hg : g n with _ | loc <;> rw [hg] at he
  · simp at he
    subst he
    exact ⟨rfl, rfl⟩
  · refine mem_ite_prop (fun ev => ev.isDraw = false ∧ ev.isRAF = false) ?_
      (mem_ite_prop _ ?_ (mem_ite_prop _ ?_ (mem_ite_prop _ ?_
      (mem_ite_prop _ ?_ (mem_ite_prop _ ?_ (mem_ite_prop _ ?_
      (mem_ite_prop _ ?_ (mem_ite_prop _ ?_ (mem_ite_prop _ ?_
      (mem_ite_prop _ ?_ ?_)))))))))) e he <;>
      exact forall_mem_singleton_prop ⟨rfl, rfl⟩

theorem uniformsTrace_noLate (g : String → Option Nat)
    (us : Option (List (String × Uniform))) :
    ∀ e ∈ uniformsTrace g us, e.isDraw = false ∧ e.isRAF = false := by
  intro e he
  cases us with
  | none => simp [uniformsTrace] at he
  | some l =>
      simp [uniformsTrace] at he
      obtain ⟨nm, un, hmem, he⟩ := he
      exact setUniform_noLate g nm un e he

theorem configureBlend_noLate (st : GLState) (b : Option BlendConfig) :
    ∀ e ∈ (configureBlend st b).2, e.isDraw = false ∧ e.isRAF = false := by
  intro e he
  rcases b with _ | cfg
  · simp [configureBlend] at he
  · by_cases h1 : cfg.enabled
    · by_cases h2 : jsTruthyNat cfg.equation
      · simp [configureBlend, h1, h2] at he
        rcases he with rfl | rfl | rfl <;> exact ⟨rfl, rfl⟩
      · simp [configureBlend, h1, h2] at he
        rcases he with rfl | rfl <;> exact ⟨rfl, rfl⟩
    · simp [configureBlend, h1] at he
      subst he
      exact ⟨rfl, rfl⟩

theorem configureDepth_noLate (st : GLState) (d : Option DepthConfig) :
    ∀ e ∈ (configureDepth st d).2, e.isDraw = false ∧ e.isRAF = false := by
  intro e he
  rcases d with _ | cfg
  · simp [configureDepth] at he
  · by_cases h1 : cfg.enabled
    · by_cases h2 : jsTruthyNat cfg.func
      · simp [configureDepth, h1, h2] at he
        rcases he with rfl | rfl | rfl <;> exact ⟨rfl, rfl⟩
      · simp [configureDepth, h1, h2] at he
        rcases he with rfl | rfl <;> exact ⟨rfl, rfl⟩
    · simp [configureDepth, h1] at he
      subst he
      exact ⟨rfl, rfl⟩

theorem configure_noLate (st : GLState) (b : Option BlendConfig)
    (d : Option DepthConfig) :
    ∀ e ∈ (configureWebGLState st b d).2, e.isDraw = false ∧ e.isRAF = false := by
  unfold configureWebGLState
  exact forall_mem_append (configureBlend_noLate st b)
    (configureDepth_noLate (configureBlend st b).1 d)

theorem renderFramePre_noLate (env : RenderEnv) (stat : EnhStatic)
    (dyn : EnhDyn) (st : GLState) :
    ∀ e ∈ renderFramePre env stat dyn st, e.isDraw = false ∧ e.isRAF = false := by
  unfold renderFramePre
  refine forall_mem_append (forall_mem_append (forall_mem_append
    (forall_mem_append (forall_mem_append (forall_mem_append
      (forall_mem_if_singleton ⟨rfl, rfl⟩)
      (configure_noLate st dyn.blending dyn.depth)) ?_)
      (forall_mem_if_singleton ⟨rfl, rfl⟩))
      (forall_mem_if_singleton ⟨rfl, rfl⟩))
      (uniformsTrace_noLate env.getUniformLocation dyn.uniforms))
      (forall_mem_if_singleton ⟨rfl, rfl⟩)
  intro e he
  simp at he
  rcases he with rfl | rfl | rfl <;> exact ⟨rfl, rfl⟩

theorem frameDraw_classify (stat : EnhStatic) (dyn : EnhDyn) :
    (frameDraw stat dyn).isDraw = true ∧
    (frameDraw stat dyn).isUniformUpdate = false ∧
    (frameDraw stat dyn).isRAF = false := by
  unfold frameDraw
  split
  · exact ⟨rfl, rfl, rfl⟩
  · exact ⟨rfl, rfl, rfl⟩

theorem basicFramePre_noLate (hasOnRender : Bool) :
    ∀ e ∈ [GLev.viewport, GLev.clearColor, GLev.clear GL.COLOR_BUFFER_BIT,
            GLev.useProgram] ++ (if hasOnRender then [GLev.onRender] else []),
      e.isDraw = false ∧ e.isRAF = false := by
  refine forall_mem_append ?_ (forall_mem_if_singleton ⟨rfl, rfl⟩)
  intro e he
  simp at he
  rcases he with rfl | rfl | rfl | rfl <;> exact ⟨rfl, rfl⟩

theorem basicFrame_uniform_before_draw (onr : Bool) (dc : DrawConfigB) :
    OrderedBefore GLev.isUniformUpdate GLev.isDraw (basicFrameTrace onr dc) := by
  unfold basicFrameTrace
  refine orderedBefore_append _ _ ?_ ?_
  · intro e he
    simp at he
    rcases he with rfl | rfl <;> rfl
  · intro e he
    exact (basicFramePre_noLate onr e he).1

theorem basicFrame_draw_before_raf (onr : Bool) (dc : DrawConfigB) :
    OrderedBefore GLev.isDraw GLev.isRAF (basicFrameTrace onr dc) := by
  unfold basicFrameTrace
  rw [show [GLev.drawArrays dc.mode (jsOrNat dc.offset 0) dc.count,
        GLev.requestAnimationFrame] =
      [GLev.drawArrays dc.mode (jsOrNat dc.offset 0) dc.count] ++
        [GLev.requestAnimationFrame] from rfl, ← List.append_assoc]
  refine orderedBefore_append _ _ ?_ ?_
  · intro e he
    simp at he
    subst he
    rfl
  · refine forall_mem_append ?_ ?_
    · intro e he
      exact (basicFramePre_noLate onr e he).2
    · intro e he
      simp at he
      subst he
      rfl

theorem basicFrame_counts (onr : Bool) (dc : DrawConfigB) :
    (basicFrameTrace onr dc).countP GLev.isDraw = 1 ∧
    (basicFrameTrace onr dc).countP GLev.isRAF = 1 := by
  unfold basicFrameTrace
  have h0 : ∀ e ∈ [GLev.viewport, GLev.clearColor, GLev.clear GL.COLOR_BUFFER_BIT,
      GLev.useProgram] ++ (if onr then [GLev.onRender] else []),
      GLev.isDraw e = false ∧ GLev.isRAF e = false := basicFramePre_noLate onr
  constructor
  · rw [List.countP_append]
    have : List.countP GLev.isDraw ([GLev.viewport, GLev.clearColor,
        GLev.clear GL.COLOR_BUFFER_BIT, GLev.useProgram] ++
        (if onr then [GLev.onRender] else [])) = 0 := by
      rw [List.countP_eq_zero]
      intro e he
      simp [(h0 e he).1]
    rw [this]
    rfl
  · rw [List.countP_append]
    have : List.countP GLev.isRAF ([GLev.viewport, GLev.clearColor,
        GLev.clear GL.COLOR_BUFFER_BIT, GLev.useProgram] ++
        (if onr then [GLev.onRender] else [])) = 0 := by
      rw [List.countP_eq_zero]
      intro e he
      simp [(h0 e he).2]
    rw [this]
    rfl

theorem renderFrame_uniform_before_draw (env : RenderEnv) (stat : EnhStatic)
    (dyn : EnhDyn) (st : GLState) :
    OrderedBefore GLev.isUniformUpdate GLev.isDraw (renderFrame env stat dyn st) := by
  unfold renderFrame
  refine orderedBefore_append _ _ ?_ ?_
  · intro e he
    simp at he
    rcases he with rfl | rfl
    · exact (frameDraw_classify stat dyn).2.1
    · rfl
  · intro e he
    exact (renderFramePre_noLate env stat dyn st e he).1

theorem renderFrame_draw_before_raf (env : RenderEnv) (stat : EnhStatic)
    (dyn : EnhDyn) (st : GLState) :
    OrderedBefore GLev.isDraw GLev.isRAF (renderFrame env stat dyn st) := by
  unfold renderFrame
  rw [show [frameDraw stat dyn, GLev.requestAnimationFrame] =
      [frameDraw stat dyn] ++ [GLev.requestAnimationFrame] from rfl,
    ← List.append_assoc]
  refine orderedBefore_append _ _ ?_ ?_
  · intro e he
    simp at he
    subst he
    rfl
  · refine forall_mem_append ?_ ?_
    · intro e he
      exact (renderFramePre_noLate env stat dyn st e he).2
    · intro e he
      simp at he
      subst he
      exact (frameDraw_classify stat dyn).2.2
  
theorem renderFramePre_countP_draw (env : RenderEnv) (stat : EnhStatic)
    (dyn : EnhDyn) (st : GLState) :
    List.countP GLev.isDraw (renderFramePre env stat dyn st) = 0 := by
  rw [List.countP_eq_zero]
  intro e he
  simp [(renderFramePre_noLate env stat dyn st e he).1]

theorem renderFrame_counts (env : RenderEnv) (stat : EnhStatic)
    (dyn : EnhDyn) (st : GLState) :
    (renderFrame env stat dyn st).countP GLev.isDraw = 1 ∧
    (renderFrame env stat dyn st).countP GLev.isRAF = 1 := by
  unfold renderFrame
  constructor
  · rw [List.countP_append, renderFramePre_countP_draw]
    simp [List.countP_cons, (frameDraw_classify stat dyn).1,
      (frameDraw_classify stat dyn).2.2]
    rfl
  · rw [List.countP_append]
    have h1 : List.countP GLev.isRAF (renderFramePre env stat dyn st) = 0 := by
      rw [List.countP_eq_zero]
      intro e he
      simp [(renderFramePre_noLate env stat dyn st e he).2]
    rw [h1]
    simp [List.countP_cons, (frameDraw_classify stat dyn).2.2]
    rfl

/-- C4: the useWebGL hooks do their WebGL work in a fixed order: in the
initialization effect every shader-creation/compilation/linking call
precedes every vertex-buffer and attribute-configuration call; and on
every rendered frame the uniform updates (the configured uniforms and the
`onRender` callback) precede the single draw call, after which
`requestAnimationFrame` schedules the next frame (exactly one draw and one
schedule per frame), in both the basic and the enhanced hook. -/
theorem useWebGL_fixed_order :
    (∀ env opts, OrderedBefore GLev.isProgramSetup GLev.isBufferSetup
        (basicInitTrace env opts)) ∧
    (∀ onr dc, OrderedBefore GLev.isUniformUpdate GLev.isDraw (basicFrameTrace onr dc) ∧
        OrderedBefore GLev.isDraw GLev.isRAF (basicFrameTrace onr dc) ∧
        (basicFrameTrace onr dc).countP GLev.isDraw = 1 ∧
        (basicFrameTrace onr dc).countP GLev.isRAF = 1) ∧
    (∀ env stat dyn st,
        OrderedBefore GLev.isUniformUpdate GLev.isDraw (renderFrame env stat dyn st) ∧
        OrderedBefore GLev.isDraw GLev.isRAF (renderFrame env stat dyn st) ∧
        (renderFrame env stat dyn st).countP GLev.isDraw = 1 ∧
        (renderFrame env stat dyn st).countP GLev.isRAF = 1) :=
  ⟨basicInit_order,
   fun onr dc => ⟨basicFrame_uniform_before_draw onr dc,
     basicFrame_draw_before_raf onr dc,
     (basicFrame_counts onr dc).1, (basicFrame_counts onr dc).2⟩,
   fun env stat dyn st => ⟨renderFrame_uniform_before_draw env stat dyn st,
     renderFrame_draw_before_raf env stat dyn st,
     (renderFrame_counts env stat dyn st).1,
     (renderFrame_counts env stat dyn st).2⟩⟩

theorem useWebGL_fixed_order_witness : 0 < 12 ∧ 4 < 5 :=
  ⟨useWebGL_fixed_order.1 basicEnv0 bopts0 0 12 (by decide) (by decide)
      (by decide) (by decide),
   (useWebGL_fixed_order.2.1 true dcB0).1 4 5 (by decide) (by decide)
      (by decide) (by decide)⟩

theorem renderFramePre_noDrawAE (env : RenderEnv) (stat : EnhStatic)
    (dyn : EnhDyn) (st : GLState) :
    ∀ e ∈ renderFramePre env stat dyn st,
      e.isDrawArrays = false ∧ e.isDrawElements = false := by
  intro e he
  have h := (renderFramePre_noLate env stat dyn st e he).1
  simp [GLev.isDraw] at h
  exact h

theorem countP_renderFrame_eq (env : RenderEnv) (stat : EnhStatic)
    (dyn : EnhDyn) (st : GLState) (p : GLev → Bool)
    (hp : ∀ e ∈ renderFramePre env stat dyn st, p e = false)
    (hraf : p GLev.requestAnimationFrame = false) :
    (renderFrame env stat dyn st).countP p =
      (if p (frameDraw stat dyn) then 1 else 0) := by
  unfold renderFrame
  rw [List.countP_append]
  have h0 : List.countP p (renderFramePre env stat dyn st) = 0 := by
    rw [List.countP_eq_zero]
    intro e he
    simp [hp e he]
  rw [h0]
  simp [List.countP_cons, hraf]

/-- C5: on each rendered frame the enhanced hook issues `drawElements` iff
`drawConfig.useElements` is truthy and an index buffer was created from
`options.indices`, with index type `UNSIGNED_INT` and byte offset
`4 * offset` for `Uint32Array` indices and `UNSIGNED_SHORT` with
`2 * offset` otherwise; in every other case it issues `drawArrays` with
the configured mode, offset (defaulting to 0) and count. -/
theorem renderFrame_draw_selection (env : RenderEnv) (stat : EnhStatic)
    (dyn : EnhDyn) (st : GLState) :
    (jsTruthyBool dyn.drawConfig.useElements = true →
      stat.indices = some IndexKind.uint32 →
        GLev.drawElements dyn.drawConfig.mode dyn.drawConfig.count
            GL.UNSIGNED_INT (4 * jsOrNat dyn.drawConfig.offset 0)
          ∈ renderFrame env stat dyn st ∧
        (renderFrame env stat dyn st).countP GLev.isDrawElements = 1 ∧
        (renderFrame env stat dyn st).countP GLev.isDrawArrays = 0) ∧
    (jsTruthyBool dyn.drawConfig.useElements = true →
      stat.indices = some IndexKind.uint16 →
        GLev.drawElements dyn.drawConfig.mode dyn.drawConfig.count
            GL.UNSIGNED_SHORT (2 * jsOrNat dyn.drawConfig.offset 0)
          ∈ renderFrame env stat dyn st ∧
        (renderFrame env stat dyn st).countP GLev.isDrawElements = 1 ∧
        (renderFrame env stat dyn st).countP GLev.isDrawArrays = 0) ∧
    (¬(jsTruthyBool dyn.drawConfig.useElements = true ∧
        stat.indices.isSome = true) →
        GLev.drawArrays dyn.drawConfig.mode (jsOrNat dyn.drawConfig.offset 0)
            dyn.drawConfig.count
          ∈ renderFrame env stat dyn st ∧
        (renderFrame env stat dyn st).countP GLev.isDrawArrays = 1 ∧
        (renderFrame env stat dyn st).countP GLev.isDrawElements = 0) := by
  have hmem : frameDraw stat dyn ∈ renderFrame env stat dyn st := by
    unfold renderFrame
    exact List.mem_append_right _ (List.mem_cons_self _ _)
  have hAE := fun e he => (renderFramePre_noDrawAE env stat dyn st e he).2
  have hAA := fun e he => (renderFramePre_noDrawAE env stat dyn st e he).1
  refine ⟨?_, ?_, ?_⟩
  · intro h1 h2
    have hfd : frameDraw stat dyn =
        GLev.drawElements dyn.drawConfig.mode dyn.drawConfig.count
          GL.UNSIGNED_INT (4 * jsOrNat dyn.drawConfig.offset 0) := by
      simp [frameDraw, useElementsNow, chosenIndexType, h1, h2, Nat.mul_comm]
    refine ⟨hfd ▸ hmem, ?_, ?_⟩
    · rw [countP_renderFrame_eq env stat dyn st _ hAE rfl, hfd]
      rfl
    · rw [countP_renderFrame_eq env stat dyn st _ hAA rfl, hfd]
      rfl
  · intro h1 h2
    have hfd : frameDraw stat dyn =
        GLev.drawElements dyn.drawConfig.mode dyn.drawConfig.count
          GL.UNSIGNED_SHORT (2 * jsOrNat dyn.drawConfig.offset 0) := by
      simp [frameDraw, useElementsNow, chosenIndexType, h1, h2, GL.UNSIGNED_INT,
        GL.UNSIGNED_SHORT, Nat.mul_comm]
    refine ⟨hfd ▸ hmem, ?_, ?_⟩
    · rw [countP_renderFrame_eq env stat dyn st _ hAE rfl, hfd]
      rfl
    · rw [countP_renderFrame_eq env stat dyn st _ hAA rfl, hfd]
      rfl
  · intro h
    have hcond : useElementsNow stat dyn = false := by
      unfold useElementsNow
      rcases hu : jsTruthyBool dyn.drawConfig.useElements
      · rfl
      · rcases hs : stat.indices.isSome
        · rfl
        · exact absurd ⟨hu, hs⟩ h
    have hfd : frameDraw stat dyn =
        GLev.drawArrays dyn.drawConfig.mode (jsOrNat dyn.drawConfig.offset 0)
          dyn.drawConfig.count := by
      simp [frameDraw, hcond]
    refine ⟨hfd ▸ hmem, ?_, ?_⟩
    · rw [countP_renderFrame_eq env stat dyn st _ hAA rfl, hfd]
      rfl
    · rw [countP_renderFrame_eq env stat dyn st _ hAE rfl, hfd]
      rfl

theorem renderFrame_draw_selection_witness :
    GLev.drawElements dcE0.mode dcE0.count GL.UNSIGNED_INT
        (4 * jsOrNat dcE0.offset 0) ∈ renderFrame renv0 stat0 dyn0 glState0 ∧
    (renderFrame renv0 stat0 dyn0 glState0).countP GLev.isDrawElements = 1 ∧
    (renderFrame renv0 stat0 dyn0 glState0).countP GLev.isDrawArrays = 0 :=
  (renderFrame_draw_selection renv0 stat0 dyn0 glState0).1 (by decide) (by decide)

/-- C6: `setUniform` performs exactly the uniform call selected by the
type tag, with `transpose = false` for the matrix variants, applied to the
uniform's value; a null location or an unknown tag produces only a console
warning and no uniform call. -/
theorem setUniform_dispatch (g : String → Option Nat) (n : String) (u : Uniform) :
    (g n = none →
      setUniform g n u = [GLev.consoleWarn ("Uniform not found in shader: " ++ n)] ∧
      ∀ e ∈ setUniform g n u, e.isUniformCall = false) ∧
    (∀ loc, g n = some loc →
      (u.ty = "1f" → setUniform g n u = [GLev.uniformCall ("uniform1f") loc none u.value]) ∧
      (u.ty = "2f" → setUniform g n u = [GLev.uniformCall ("uniform2fv") loc none u.value]) ∧
      (u.ty = "3f" → setUniform g n u = [GLev.uniformCall ("uniform3fv") loc none u.value]) ∧
      (u.ty = "4f" → setUniform g n u = [GLev.uniformCall ("uniform4fv") loc none u.value]) ∧
      (u.ty = "1i" → setUniform g n u = [GLev.uniformCall ("uniform1i") loc none u.value]) ∧
      (u.ty = "2i" → setUniform g n u = [GLev.uniformCall ("uniform2iv") loc none u.value]) ∧
      (u.ty = "3i" → setUniform g n u = [GLev.uniformCall ("uniform3iv") loc none u.value]) ∧
      (u.ty = "4i" → setUniform g n u = [GLev.uniformCall ("uniform4iv") loc none u.value]) ∧
      (u.ty = "Matrix2fv" →
        setUniform g n u = [GLev.uniformCall ("uniformMatrix2fv") loc (some false) u.value]) ∧
      (u.ty = "Matrix3fv" →
        setUniform g n u = [GLev.uniformCall ("uniformMatrix3fv") loc (some false) u.value]) ∧
      (u.ty = "Matrix4fv" →
        setUniform g n u = [GLev.uniformCall ("uniformMatrix4fv") loc (some false) u.value]) ∧
      (u.ty ∉ (["1f", "2f", "3f", "4f", "1i", "2i", "3i", "4i",
                "Matrix2fv", "Matrix3fv", "Matrix4fv"] : List String) →
        setUniform g n u = [GLev.consoleWarn ("Unknown uniform type: " ++ u.ty)] ∧
        ∀ e ∈ setUniform g n u, e.isUniformCall = false)) := by
  constructor
  · intro h
    have ht : setUniform g n u = [GLev.consoleWarn ("Uniform not found in shader: " ++ n)] := by
      simp [setUniform, h]
    refine ⟨ht, ?_⟩
    rw [ht]
    intro e he
    simp at he
    subst he
    rfl
  · intro loc hloc
    refine ⟨?_, ?_, ?_, ?_, ?_, ?_, ?_, ?_, ?_, ?_, ?_, ?_⟩
    · intro ht; simp [setUniform, hloc, ht]
    · intro ht; simp [setUniform, hloc, ht]
    · intro ht; simp [setUniform, hloc, ht]
    · intro ht; simp [setUniform, hloc, ht]
    · intro ht; simp [setUniform, hloc, ht]
    · intro ht; simp [setUniform, hloc, ht]
    · intro ht; simp [setUniform, hloc, ht]
    · intro ht; simp [setUniform, hloc, ht]
    · intro ht; simp [setUniform, hloc, ht]
    · intro ht; simp [setUniform, hloc, ht]
    · intro ht; simp [setUniform, hloc, ht]
    · intro hnot
      simp at hnot
      obtain ⟨h1, h2, h3, h4, h5, h6, h7, h8, h9, h10, h11⟩ := hnot
      have ht : setUniform g n u = [GLev.consoleWarn ("Unknown uniform type: " ++ u.ty)] := by
        simp [setUniform, hloc, h1, h2, h3, h4, h5, h6, h7, h8, h9, h10, h11]
      refine ⟨ht, ?_⟩
      rw [ht]
      intro e he
      simp at he
      subst he
      rfl

theorem setUniform_dispatch_witness :
    setUniform renv0.getUniformLocation ("u_time")
      { ty := "1f", value := 5 } = [GLev.uniformCall ("uniform1f") 0 none 5] :=
  ((setUniform_dispatch renv0.getUniformLocation ("u_time")
    { ty := "1f", value := 5 }).2 0 rfl).1 rfl

/-- C7: on a false `COMPILE_STATUS` the hook logs the shader info log,
deletes the shader and `initWebGLProgram` returns null without ever
reaching a link; on a false `LINK_STATUS` it logs the program info log,
deletes the program and returns null after a single link attempt; and when
`initWebGLProgram` returns null the initialization effect performs no
buffer or attribute call. -/
theorem initWebGLProgram_error_handling :
    (∀ (env : ShaderEnv) (k : ShaderKind),
      env.createShaderOk k = true → env.compileOk k = false →
      (initWebGLProgram env).1 = none ∧
      GLev.consoleError ("Shader compilation error: " ++ env.shaderLog k)
        ∈ (initWebGLProgram env).2 ∧
      GLev.deleteShader k ∈ (initWebGLProgram env).2 ∧
      (initWebGLProgram env).2.countP (fun e => e == GLev.linkProgram) = 0) ∧
    (∀ env : ShaderEnv,
      (∀ k, env.createShaderOk k = true) → (∀ k, env.compileOk k = true) →
      env.createProgramOk = true → env.linkOk = false →
      (initWebGLProgram env).1 = none ∧
      GLev.consoleError ("Program linking error: " ++ env.programLog)
        ∈ (initWebGLProgram env).2 ∧
      GLev.deleteProgram ∈ (initWebGLProgram env).2 ∧
      (initWebGLProgram env).2.countP (fun e => e == GLev.linkProgram) = 1) ∧
    (∀ (env : BasicEnv) (opts : BasicOptions),
      (initWebGLProgram env.shader).1 = none →
      ∀ e ∈ basicInitTrace env opts, e.isBufferSetup = false) := by
  refine ⟨?_, ?_, ?_⟩
  · intro env k hok hbad
    cases k with
    | vertex =>
        by_cases h1 : env.createShaderOk ShaderKind.fragment <;>
          by_cases h2 : env.compileOk ShaderKind.fragment <;>
            simp [initWebGLProgram, createShaderTrace, hok, hbad, h1, h2,
              List.countP_cons]
    | fragment =>
        by_cases h1 : env.createShaderOk ShaderKind.vertex <;>
          by_cases h2 : env.compileOk ShaderKind.vertex <;>
            simp [initWebGLProgram, createShaderTrace, hok, hbad, h1, h2,
              List.countP_cons]
  · intro env hok hcomp hprog hlink
    simp [initWebGLProgram, createShaderTrace, hok ShaderKind.vertex,
      hok ShaderKind.fragment, hcomp ShaderKind.vertex,
      hcomp ShaderKind.fragment, hprog, hlink, List.countP_cons]
  · intro env opts hnone e he
    unfold basicInitTrace at he
    by_cases h1 : env.canvasPresent
    · by_cases h2 : env.glOk
      · simp [h1, h2, hnone] at he
        exact initWebGLProgram_noBuffer env.shader e he
      · simp [h1, h2] at he
        subst he
        rfl
    · simp [h1] at he

theorem initWebGLProgram_error_handling_witness :
    ((initWebGLProgram shaderEnvBadVertex).1 = none ∧
      GLev.consoleError ("Shader compilation error: " ++
          shaderEnvBadVertex.shaderLog ShaderKind.vertex)
        ∈ (initWebGLProgram shaderEnvBadVertex).2 ∧
      GLev.deleteShader ShaderKind.vertex ∈ (initWebGLProgram shaderEnvBadVertex).2 ∧
      (initWebGLProgram shaderEnvBadVertex).2.countP
        (fun e => e == GLev.linkProgram) = 0) ∧
    ((initWebGLProgram shaderEnvBadLink).1 = none ∧
      GLev.consoleError ("Program linking error: " ++ shaderEnvBadLink.programLog)
        ∈ (initWebGLProgram shaderEnvBadLink).2 ∧
      GLev.deleteProgram ∈ (initWebGLProgram shaderEnvBadLink).2 ∧
      (initWebGLProgram shaderEnvBadLink).2.countP
        (fun e => e == GLev.linkProgram) = 1) :=
  ⟨initWebGLProgram_error_handling.1 shaderEnvBadVertex ShaderKind.vertex
      (by decide) (by decide),
   initWebGLProgram_error_handling.2.1 shaderEnvBadLink
      (fun _ => rfl) (fun _ => rfl) rfl rfl⟩

theorem configureDepth_blend_fields (s : GLState) (d : Option DepthConfig) :
    (configureDepth s d).1.blendOn = s.blendOn ∧
    (configureDepth s d).1.blendSrc = s.blendSrc ∧
    (configureDepth s d).1.blendDst = s.blendDst ∧
    (configureDepth s d).1.blendEq = s.blendEq := by
  rcases d with _ | cfg
  · simp [configureDepth]
  · by_cases h1 : cfg.enabled
    · by_cases h2 : jsTruthyNat cfg.func <;> simp [configureDepth, h1, h2]
    · simp [configureDepth, h1]

theorem configureDepth_no_blend_events (s : GLState) (d : Option DepthConfig) :
    ∀ e ∈ (configureDepth s d).2,
      (∀ a b2, e ≠ GLev.blendFunc a b2) ∧ (∀ q, e ≠ GLev.blendEquationCall q) ∧
      e ≠ GLev.enableCap GL.BLEND ∧ e ≠ GLev.disableCap GL.BLEND := by
  intro e he
  rcases d with _ | cfg
  · simp [configureDepth] at he
  · by_cases h1 : cfg.enabled
    · by_cases h2 : jsTruthyNat cfg.func
      · simp [configureDepth, h1, h2] at he
        rcases he with rfl | rfl | rfl <;>
          refine ⟨?_, ?_, ?_, ?_⟩ <;> intro h <;> try intro h2' h3' <;> try rfl
        all_goals simp_all [GL.DEPTH_TEST, GL.BLEND]
      · simp [configureDepth, h1, h2] at he
        rcases he with rfl | rfl <;>
          refine ⟨?_, ?_, ?_, ?_⟩ <;> intro h <;> try intro h2' h3' <;> try rfl
        all_goals simp_all [GL.DEPTH_TEST, GL.BLEND]
    · simp [configureDepth, h1] at he
      subst he
      refine ⟨?_, ?_, ?_, ?_⟩ <;> intro h <;> try intro h2' h3' <;> try rfl
      all_goals simp_all [GL.DEPTH_TEST, GL.BLEND]

/-- C8 counterexample: with `blending.enabled` and `srcFactor` given as the
numeric constant 0 (`gl.ZERO`), the code does not call `blendFunc` with the
given factor (as "srcFactor defaulting to SRC_ALPHA" predicts for a present
factor) but replaces it with `SRC_ALPHA`, because JavaScript `||` treats 0
as absent. -/
theorem configure_blend_zero_counterexample :
    blendZeroCfg.enabled = true ∧ blendZeroCfg.srcFactor = some 0 ∧
    (configureWebGLState glState0 (some blendZeroCfg) none).1.blendSrc = GL.SRC_ALPHA ∧
    (configureWebGLState glState0 (some blendZeroCfg) none).1.blendSrc ≠
      Option.getD blendZeroCfg.srcFactor GL.SRC_ALPHA ∧
    GLev.blendFunc (Option.getD blendZeroCfg.srcFactor GL.SRC_ALPHA)
        (Option.getD blendZeroCfg.dstFactor GL.ONE_MINUS_SRC_ALPHA) ∉
      (configureWebGLState glState0 (some blendZeroCfg) none).2 := by
  decide

/-- C8 (amended): `configureWebGLState` touches the blend state only when
`options.blending` is present: when enabled it enables `BLEND` and calls
`blendFunc` with `srcFactor` defaulting to `SRC_ALPHA` when absent or 0
and `dstFactor` defaulting to `ONE_MINUS_SRC_ALPHA` when absent or 0,
calling `blendEquation` only when a truthy equation is given; when
disabled it disables `BLEND`; when absent, the blend enable flag, blend
function and blend equation are left unchanged. -/
theorem configureWebGLState_blend (st : GLState) (b : Option BlendConfig)
    (d : Option DepthConfig) :
    (b = none →
      (configureWebGLState st b d).1.blendOn = st.blendOn ∧
      (configureWebGLState st b d).1.blendSrc = st.blendSrc ∧
      (configureWebGLState st b d).1.blendDst = st.blendDst ∧
      (configureWebGLState st b d).1.blendEq = st.blendEq ∧
      (∀ a b2, GLev.blendFunc a b2 ∉ (configureWebGLState st b d).2) ∧
      (∀ q, GLev.blendEquationCall q ∉ (configureWebGLState st b d).2) ∧
      GLev.enableCap GL.BLEND ∉ (configureWebGLState st b d).2 ∧
      GLev.disableCap GL.BLEND ∉ (configureWebGLState st b d).2) ∧
    (∀ cfg, b = some cfg → cfg.enabled = true →
      (configureWebGLState st b d).1.blendOn = true ∧
      (configureWebGLState st b d).1.blendSrc = jsOrNat cfg.srcFactor GL.SRC_ALPHA ∧
      (configureWebGLState st b d).1.blendDst = jsOrNat cfg.dstFactor GL.ONE_MINUS_SRC_ALPHA ∧
      GLev.enableCap GL.BLEND ∈ (configureWebGLState st b d).2 ∧
      GLev.blendFunc (jsOrNat cfg.srcFactor GL.SRC_ALPHA)
        (jsOrNat cfg.dstFactor GL.ONE_MINUS_SRC_ALPHA) ∈ (configureWebGLState st b d).2 ∧
      (jsTruthyNat cfg.equation = false →
        (configureWebGLState st b d).1.blendEq = st.blendEq ∧
        ∀ q, GLev.blendEquationCall q ∉ (configureWebGLState st b d).2) ∧
      (∀ q, cfg.equation = some q → q ≠ 0 →
        (configureWebGLState st b d).1.blendEq = q ∧
        GLev.blendEquationCall q ∈ (configureWebGLState st b d).2)) ∧
    (∀ cfg, b = some cfg → cfg.enabled = false →
      (configureWebGLState st b d).1.blendOn = false ∧
      GLev.disableCap GL.BLEND ∈ (configureWebGLState st b d).2 ∧
      (configureWebGLState st b d).1.blendSrc = st.blendSrc ∧
      (configureWebGLState st b d).1.blendDst = st.blendDst ∧
      (configureWebGLState st b d).1.blendEq = st.blendEq) := by
  refine ⟨?_, ?_, ?_⟩
  · intro hb
    subst hb
    have h1 := configureDepth_blend_fields st d
    have h2 := configureDepth_no_blend_events st d
    simp only [configureWebGLState, configureBlend, List.nil_append]
    refine ⟨h1.1, h1.2.1, h1.2.2.1, h1.2.2.2, ?_, ?_, ?_, ?_⟩
    · intro a b2 hmem
      exact (h2 _ hmem).1 a b2 rfl
    · intro q hmem
      exact (h2 _ hmem).2.1 q rfl
    · intro hmem
      exact (h2 _ hmem).2.2.1 rfl
    · intro hmem
      exact (h2 _ hmem).2.2.2 rfl
  · intro cfg hb henb
    subst hb
    by_cases heq : jsTruthyNat cfg.equation
    · simp only [configureWebGLState, configureBlend, henb, heq, if_true]
      refine ⟨?_, ?_, ?_, ?_, ?_, ?_, ?_⟩
      · rw [(configureDepth_blend_fields _ d).1]
      · rw [(configureDepth_blend_fields _ d).2.1]
      · rw [(configureDepth_blend_fields _ d).2.2.1]
      · exact List.mem_append_left _ (by simp)
      · exact List.mem_append_left _ (by simp)
      · intro hfalse
        simp at hfalse
      · intro q hq hq0
        constructor
        · rw [(configureDepth_blend_fields _ d).2.2.2]
          simp [hq]
        · refine List.mem_append_left _ ?_
          simp [hq]
    · rw [Bool.not_eq_true] at heq
      simp only [configureWebGLState, configureBlend, henb, heq,
        Bool.false_eq_true, if_true, if_false]
      refine ⟨?_, ?_, ?_, ?_, ?_, ?_, ?_⟩
      · rw [(configureDepth_blend_fields _ d).1]
      · rw [(configureDepth_blend_fields _ d).2.1]
      · rw [(configureDepth_blend_fields _ d).2.2.1]
      · exact List.mem_append_left _ (by simp)
      · exact List.mem_append_left _ (by simp)
      · intro _
        refine ⟨by rw [(configureDepth_blend_fields _ d).2.2.2], ?_⟩
        intro q hmem
        rcases List.mem_append.mp hmem with h | h
        · simp at h
        · exact (configureDepth_no_blend_events _ d _ h).2.1 q rfl
      · intro q hq hq0
        exfalso
        rw [hq] at heq
        simp [jsTruthyNat, hq0] at heq
  · intro cfg hb henb
    subst hb
    simp only [configureWebGLState, configureBlend, henb, Bool.false_eq_true,
      if_false]
    refine ⟨?_, ?_, ?_, ?_, ?_⟩
    · rw [(configureDepth_blend_fields _ d).1]
    · exact List.mem_append_left _ (by simp)
    · rw [(configureDepth_blend_fields _ d).2.1]
    · rw [(configureDepth_blend_fields _ d).2.2.1]
    · rw [(configureDepth_blend_fields _ d).2.2.2]

theorem configureWebGLState_blend_witness :
    (configureWebGLState glState0 (some blendZeroCfg) none).1.blendOn = true ∧
    (configureWebGLState glState0 (some blendZeroCfg) none).1.blendSrc =
      jsOrNat blendZeroCfg.srcFactor GL.SRC_ALPHA :=
  ⟨((configureWebGLState_blend glState0 (some blendZeroCfg) none).2.1
      blendZeroCfg rfl rfl).1,
   ((configureWebGLState_blend glState0 (some blendZeroCfg) none).2.1
      blendZeroCfg rfl rfl).2.1⟩

/-! ## The attribute-offset accounting (C9) -/

theorem attribLoop_mem_general (getLoc : String → Int) (F stride : Nat) :
    ∀ (attrs : List Attr) (off0 k : Nat) (a : Attr),
      attrs.get? k = some a → ¬(getLoc a.name < 0) →
      GLev.vertexAttribPointer (getLoc a.name) a.size a.ty (a.normalized.getD false)
          stride (off0 + ((attrs.take k).map (foundSize getLoc)).sum * F)
        ∈ attribLoop getLoc F stride attrs off0 := by
  intro attrs
  induction attrs with
  | nil =>
      intro off0 k a hk
      simp at hk
  | cons a0 rest ih =>
      intro off0 k a hk hfound
      cases k with
      | zero =>
          simp at hk
          subst hk
          simp [attribLoop, hfound]
      | succ k' =>
          have hk' : rest.get? k' = some a := by simpa using hk
          by_cases h0 : getLoc a0.name < 0
          · have hmem := ih off0 k' a hk' hfound
            simp only [attribLoop, if_pos h0]
            refine List.mem_cons_of_mem _ ?_
            convert hmem using 2
            simp [foundSize, h0]
          · have hmem := ih (off0 + a0.size * F) k' a hk' hfound
            simp only [attribLoop, if_neg h0]
            refine List.mem_cons_of_mem _ (List.mem_cons_of_mem _ ?_)
            convert hmem using 2
            simp [foundSize, h0, Nat.add_mul]
            omega
  
theorem found_skipped_sum (getLoc : String → Int) (l : List Attr) :
    (l.map (foundSize getLoc)).sum + (l.map (skippedSize getLoc)).sum =
      (l.map Attr.size).sum := by
  induction l with
  | nil => rfl
  | cons a rest ih =>
      by_cases h : getLoc a.name < 0 <;>
        simp [foundSize, skippedSize, h] <;> omega

/-- C9: in the attribute setup loop the byte offset bound for the `k`-th
attribute equals `BYTES_PER_ELEMENT` times the sum of the sizes of only
the preceding attributes found in the program; the found-offset plus the
skipped sizes accounts exactly for the full interleaved offset, so each
attribute after a missing one is bound lower by the missing attribute's
byte size. -/
theorem attribLoop_offset_skips (getLoc : String → Int) (F stride : Nat)
    (attrs : List Attr) (k : Nat) (a : Attr)
    (hk : attrs.get? k = some a) (hfound : ¬(getLoc a.name < 0)) :
    GLev.vertexAttribPointer (getLoc a.name) a.size a.ty (a.normalized.getD false)
        stride (foundOffset getLoc F attrs k) ∈ attribLoop getLoc F stride attrs 0 ∧
    foundOffset getLoc F attrs k +
        ((attrs.take k).map (skippedSize getLoc)).sum * F = fullOffset F attrs k := by
  constructor
  · have h := attribLoop_mem_general getLoc F stride attrs 0 k a hk hfound
    simpa [foundOffset] using h
  · unfold foundOffset fullOffset
    rw [← Nat.add_mul, found_skipped_sum]

theorem attribLoop_offset_skips_witness :
    GLev.vertexAttribPointer (getLocW ("a_color")) 4 5126 false 24
        (foundOffset getLocW 4 attrsW 2) ∈ attribLoop getLocW 4 24 attrsW 0 ∧
    foundOffset getLocW 4 attrsW 2 +
        ((attrsW.take 2).map (skippedSize getLocW)).sum * 4 = fullOffset 4 attrsW 2 :=
  attribLoop_offset_skips getLocW 4 24 attrsW 2
    { name := "a_color", size := 4, ty := 5126, normalized := none }
    (by decide) (by decide)
